import Mathlib

/-
  Verification of the MediBuddy backend (src/main.py) against its
  natural-language specification.

  The request handlers of src/main.py are shallowly embedded below as pure
  Lean functions: a JSON payload field is an `Option` (absent = `none`),
  dynamically typed payload values are the inductive `PyVal`, Python's
  truthiness and `or` are made explicit, wall-clock reads and generated
  identifiers are passed in as parameters, and an uncaught Python exception
  is `Option.none` (respectively an explicit error result).  The JSON files
  under data/ are the fields of `Store`.
-/

namespace Medibuddy

/-- A dynamically typed Python value, restricted to the shapes the embedded
handlers actually receive (None, bool, int, str). -/
inductive PyVal where
  | vNone : PyVal
  | vBool : Bool → PyVal
  | vInt : Int → PyVal
  | vStr : String → PyVal
deriving DecidableEq, Repr

/-- Python truthiness for `PyVal`: None, False, 0 and "" are falsy. -/
def PyVal.truthy : PyVal → Bool
  | .vNone => false
  | .vBool b => b
  | .vInt n => n != 0
  | .vStr s => !(s == "")

/-- Truthiness of an optional string payload field: a missing field (Python
None) and the empty string are falsy. -/
def truthyS : Option String → Bool
  | none => false
  | some s => !(s == "")

/-- Python `x or y` on optional strings: keep `x` when it is a truthy
string, otherwise fall back to `y`. -/
def pyOrOptS (a b : Option String) : Option String :=
  match a with
  | some s => if s = "" then b else some s
  | none => b

/-- Python `x or y` where `y` is a plain string default. -/
def pyOrS (a : Option String) (b : String) : String :=
  match a with
  | some s => if s = "" then b else s
  | none => b

/-- Python `x or 0` as it appears in `int(payload.get("timestamp") or 0)`:
a missing or falsy value becomes the int 0. -/
def pyOrZero (v : Option PyVal) : PyVal :=
  match v with
  | none => .vInt 0
  | some w => if w.truthy then w else .vInt 0

/-- The six ASCII whitespace characters `int()` strips from a string. -/
def isPySpace (c : Char) : Bool :=
  c = ' ' || c = '\t' || c = '\n' || c = '\r' || c = '\x0b' || c = '\x0c'

/-- Digit run of a Python decimal numeral: digits, optionally separated by
single underscores (no leading, trailing or doubled underscore).  Returns
the accumulated value, `none` when the characters are not such a run. -/
def digitsCore (acc : Nat) : List Char → Option Nat
  | [] => some acc
  | c :: rest =>
    if c.isDigit then digitsCore (acc * 10 + (c.toNat - 48)) rest
    else if c = '_' then
      match rest with
      | [] => none
      | d :: rest2 =>
        if d.isDigit then digitsCore (acc * 10 + (d.toNat - 48)) rest2 else none
    else none

/-- Python `int(s)` for a string argument: strip surrounding whitespace,
allow an optional sign, then require a decimal digit run; `none` models the
`ValueError` raised on any other string. -/
def pyIntOfStr (s : String) : Option Int :=
  let cs := ((s.data.dropWhile isPySpace).reverse.dropWhile isPySpace).reverse
  match cs with
  | [] => none
  | '+' :: rest =>
    match rest with
    | [] => none
    | d :: rest2 =>
      if d.isDigit then (digitsCore (d.toNat - 48) rest2).map Int.ofNat else none
  | '-' :: rest =>
    match rest with
    | [] => none
    | d :: rest2 =>
      if d.isDigit then (digitsCore (d.toNat - 48) rest2).map (fun n => -(Int.ofNat n)) else none
  | d :: rest =>
    if d.isDigit then (digitsCore (d.toNat - 48) rest).map Int.ofNat else none

/-- Python `int(v)` on a dynamically typed value: bools and ints convert,
strings are parsed by `pyIntOfStr`, `None` raises (TypeError). -/
def pyIntConv : PyVal → Option Int
  | .vNone => none
  | .vBool b => some (if b then 1 else 0)
  | .vInt n => some n
  | .vStr s => pyIntOfStr s

/-- A stored reminder document, as built by `create_reminder`. -/
structure Reminder where
  id : String
  medicine : Option String
  timestamp : Int
  phone : Option String
  day : PyVal
  created_at : Int
  taken : Bool
deriving DecidableEq, Repr

/-- The JSON payload of POST /api/reminders; `none` is an absent field. -/
structure ReminderPayload where
  medicine : Option String
  timestamp : Option PyVal
  phone : Option String
  day : Option PyVal
deriving DecidableEq, Repr

/-- Embedding of `create_reminder` of src/main.py: build the reminder document with
`int(payload.get("timestamp") or 0)`, `payload.get("day", 1)`, a fresh id
and `taken = False`, and append it to the stored list.  `none` models the
uncaught `ValueError` from `int()`, in which case nothing is saved. -/
def create_reminder (p : ReminderPayload) (newId : String) (now : Int)
    (data : List Reminder) : Option (List Reminder × String) :=
  match pyIntConv (pyOrZero p.timestamp) with
  | none => none
  | some ts =>
    let r : Reminder :=
      { id := newId
        medicine := p.medicine
        timestamp := ts
        phone := p.phone
        day := p.day.getD (.vInt 1)
        created_at := now
        taken := false }
    some (data ++ [r], r.id)

/-- Lookup in a JSON object modelled as an association list (later `setKey`
writes keep keys unique, matching a Python dict). -/
def getKey (k : String) : List (String × α) → Option α
  | [] => none
  | (k', v) :: rest => if k' = k then some v else getKey k rest

/-- Assignment `obj[k] = v` on a JSON object: replace the binding of `k` when present,
otherwise append it. -/
def setKey (k : String) (v : α) : List (String × α) → List (String × α)
  | [] => [(k, v)]
  | (k', v') :: rest => if k' = k then (k, v) :: rest else (k', v') :: setKey k v rest

/-- A stored review document, as built by `post_review`. -/
structure Review where
  id : String
  name : String
  text : String
  rating : Int
  phone : Option String
  created_at : Int
deriving DecidableEq, Repr

/-- The JSON payload of POST /api/reviews. -/
structure ReviewPayload where
  name : Option String
  text : Option String
  rating : Option PyVal
  phone : Option String
deriving DecidableEq, Repr

/-- Embedding of `post_review` of src/main.py: defaults name to "Anonymous" and text to
"" via Python `or`, converts `payload.get("rating") or 0` with `int()`
(`none` models the uncaught `ValueError`), appends and saves. -/
def post_review (p : ReviewPayload) (newId : String) (now : Int)
    (data : List Review) : Option (List Review × String) :=
  match pyIntConv (pyOrZero p.rating) with
  | none => none
  | some rt =>
    let rv : Review :=
      { id := newId
        name := pyOrS p.name "Anonymous"
        text := pyOrS p.text ""
        rating := rt
        phone := p.phone
        created_at := now }
    some (data ++ [rv], rv.id)

/-- A stored profile record, as built by `save_profile`. -/
structure ProfileRec where
  name : Option String
  email : Option String
  notes : Option String
  updated_at : Int
deriving DecidableEq, Repr

/-- The JSON payload of POST /api/profile. -/
structure ProfilePayload where
  phone : Option String
  name : Option String
  email : Option String
  notes : Option String
deriving DecidableEq, Repr

/-- Embedding of `save_profile` of src/main.py: a falsy phone is rejected with HTTP 400
(second component `false`) leaving the stored object untouched; otherwise
`profiles[phone]` is overwritten with the payload's name and email, with
`payload.get("notes") or profiles.get(phone, \x7b\x7d).get("notes")` as
notes, and a fresh `updated_at`. -/
def save_profile (p : ProfilePayload) (now : Int)
    (profiles : List (String × ProfileRec)) : List (String × ProfileRec) × Bool :=
  match p.phone with
  | none => (profiles, false)
  | some phone =>
    if phone = "" then (profiles, false)
    else
      let record : ProfileRec :=
        { name := p.name
          email := p.email
          notes := pyOrOptS p.notes ((getKey phone profiles).bind (fun r => r.notes))
          updated_at := now }
      (setKey phone record profiles, true)

/-- Outcome of the best-effort FCM test send in `register_token`: the
messaging library may be unavailable, or the send may succeed or raise. -/
inductive SendOutcome where
  | unavailable : SendOutcome
  | success : SendOutcome
  | failure : SendOutcome
deriving DecidableEq, Repr

/-- Embedding of `register_token` of src/main.py: a falsy phone or token is rejected
with HTTP 400 (second component `false`) leaving the stored object
untouched; otherwise `tokens[phone] = token` is saved and `ok` is returned.
The try/except around the test notification swallows the send outcome, so
the result does not mention `send`. -/
def register_token (phone token : Option String) (send : SendOutcome)
    (tokens : List (String × String)) : List (String × String) × Bool :=
  if truthyS phone && truthyS token then
    (setKey (phone.getD "") (token.getD "") tokens, true)
  else (tokens, false)

/-- The reply string built by `chat_endpoint` for message `m`. -/
def chat_reply (m : String) : String :=
  "I got your message: \"" ++ m ++
    "\". MediMitra suggests to check medicine label and consult a doctor for medical questions."

/-- Embedding of `chat_endpoint` of src/main.py: `payload.get("message", "")`; a falsy
message is rejected with HTTP 400 (`none`), otherwise the echoing reply is
returned.  The handler touches no stored data. -/
def chat_endpoint (message : Option String) : Option String :=
  let m := message.getD ""
  if m = "" then none else some (chat_reply m)

/-- Python `filename.replace(' ', '_')`: every space becomes an underscore. -/
def replaceSpaces (s : String) : String :=
  ⟨s.data.map (fun c => if c = ' ' then '_' else c)⟩

/-- Embedding of `upload_file` of src/main.py: `file.filename or "upload-<id>"`, then
`safe_name = "<id>-" + filename.replace(' ', '_')`; returns the pair of the
stored name and the public path `/uploads/<safe_name>`.  The two generated
`uuid4().hex` identifiers are passed in as `genId` (used only when the
upload has no filename) and `fileId`. -/
def upload_file (fileName : Option String) (genId fileId : String) : String × String :=
  let filename := pyOrS fileName ("upload-" ++ genId)
  let safe_name := fileId ++ "-" ++ replaceSpaces filename
  (safe_name, "/uploads/" ++ safe_name)

/-- A 32-character lowercase-hexadecimal identifier, the shape of Python's
`uuid.uuid4().hex`. -/
def isHexId (s : String) : Bool :=
  s.length == 32 && s.data.all (fun c => c.isDigit || ('a' ≤ c && c ≤ 'f'))

/-- Modelled from the spec: the Owner/User record of the dispatch loop's
owner store ("owner identifier (primary key), display name, contact email,
push destination token (opaque string, optional)").  The dispatch loop
itself is not part of src/main.py. -/
structure Owner where
  name : Option String
  email : Option String
  token : Option String
deriving DecidableEq, Repr

/-- One attempted push-notification send recorded by a sweep: the
destination token, the fixed title, the body, and whether the best-effort
send succeeded (`ok`). -/
structure SendMsg where
  token : String
  title : String
  body : String
  ok : Bool
deriving DecidableEq, Repr

/-- Modelled from the spec: one reminder's processing inside a sweep of the
dispatch loop (src/main.py has no such loop; spec §4.1).  A reminder whose
due time has passed and whose delivered flag is false has its owner looked
up; if an owner with a token exists, exactly one send with title "Medicine
Reminder" and body "Time to take <medicine>" is attempted, and the reminder
is marked delivered regardless of the outcome.  Any other reminder is left
untouched. -/
def processReminder (owners : String → Option Owner) (sendOk : String → Bool)
    (now : Int) (r : Reminder) : Reminder × List SendMsg :=
  if r.timestamp ≤ now ∧ r.taken = false then
    let sends :=
      match r.phone with
      | none => []
      | some ph =>
        match owners ph with
        | none => []
        | some ow =>
          match ow.token with
          | none => []
          | some tk =>
            [{ token := tk
               title := "Medicine Reminder"
               body := "Time to take " ++ r.medicine.getD ""
               ok := sendOk tk }]
    ({ r with taken := true }, sends)
  else (r, [])

/-- Modelled from the spec: one sweep of the dispatch loop (spec §4.1):
process every currently stored reminder, collecting the attempted sends. -/
def sweep (owners : String → Option Owner) (sendOk : String → Bool)
    (now : Int) (rs : List Reminder) : List Reminder × List SendMsg :=
  (rs.map (fun r => (processReminder owners sendOk now r).1),
   rs.flatMap (fun r => (processReminder owners sendOk now r).2))

/-- Modelled from the spec: the fixed sleep between sweeps, "10 seconds in
the reference behavior". -/
def sleepSeconds : Nat := 10

/-- An observable event of the dispatch loop: a completed sweep with its
attempted sends, or a sleep of a given number of seconds. -/
inductive LoopEvent where
  | sweepDone : List SendMsg → LoopEvent
  | slept : Nat → LoopEvent
deriving DecidableEq, Repr

/-- Modelled from the spec: the dispatch loop after `n` iterations, started
once at process startup on the initial store `init`.  `now k` is the wall
clock read by iteration `k`.  Each iteration performs one sweep and then
sleeps the fixed interval; the trace of events is returned with the
resulting reminder store. -/
def dispatchLoop (owners : String → Option Owner) (sendOk : String → Bool)
    (now : Nat → Int) (init : List Reminder) : Nat → List Reminder × List LoopEvent
  | 0 => (init, [])
  | n + 1 =>
    let prev := dispatchLoop owners sendOk now init n
    let swept := sweep owners sendOk (now n) prev.1
    (swept.1, prev.2 ++ [.sweepDone swept.2, .slept sleepSeconds])

/-- The whole persistent store: the four JSON documents under data/. -/
structure Store where
  reminders : List Reminder
  reviews : List Review
  profiles : List (String × ProfileRec)
  tokens : List (String × String)
deriving DecidableEq, Repr

/-- Every operation that can touch the store: the eight handlers of
src/main.py plus one sweep of the (spec-modelled) dispatch loop. -/
inductive Op where
  | listReminders : Op
  | createReminder : ReminderPayload → String → Int → Op
  | chat : Option String → Op
  | getReviews : Op
  | postReview : ReviewPayload → String → Int → Op
  | saveProfile : ProfilePayload → Int → Op
  | registerToken : Option String → Option String → SendOutcome → Op
  | upload : Option String → String → String → Op
  | root : Op
  | sweepOp : (String → Option Owner) → (String → Bool) → Int → Op

/-- Effect of each operation on the persistent store.  GET handlers, chat,
upload (which writes only to the uploads/ directory) and the health check
do not modify data/; a handler that raises leaves the store unchanged. -/
def applyOp : Op → Store → Store
  | .listReminders, st => st
  | .createReminder p newId now, st =>
    match create_reminder p newId now st.reminders with
    | some (rs, _) => { st with reminders := rs }
    | none => st
  | .chat _, st => st
  | .getReviews, st => st
  | .postReview p newId now, st =>
    match post_review p newId now st.reviews with
    | some (rv, _) => { st with reviews := rv }
    | none => st
  | .saveProfile p now, st => { st with profiles := (save_profile p now st.profiles).1 }
  | .registerToken ph tk send, st => { st with tokens := (register_token ph tk send st.tokens).1 }
  | .upload _ _ _, st => st
  | .root, st => st
  | .sweepOp owners sendOk now, st => { st with reminders := (sweep owners sendOk now st.reminders).1 }

/-! ## Shared lemmas -/

/-- Looking a key up right after setting it returns the new value. -/
theorem getKey_setKey_self (k : String) (v : α) (m : List (String × α)) :
    getKey k (setKey k v m) = some v := by
  induction m with
  | nil => simp [getKey, setKey]
  | cons hd tl ih =>
    by_cases h : hd.1 = k
    · simp [getKey, setKey, h]
    · simp [getKey, setKey, h, ih]

/-- A reminder already marked taken is left completely untouched by the
sweep, and no send is attempted for it. -/
theorem process_of_taken (o : String → Option Owner) (s : String → Bool)
    (now : Int) (r : Reminder) (h : r.taken = true) :
    processReminder o s now r = (r, []) := by
  simp [processReminder, h]

/-- A due, not-yet-taken reminder is marked taken by the sweep. -/
theorem process_of_due (o : String → Option Owner) (s : String → Bool)
    (now : Int) (r : Reminder) (h1 : r.timestamp ≤ now) (h2 : r.taken = false) :
    (processReminder o s now r).1 = { r with taken := true } := by
  simp [processReminder, h1, h2]

/-- Each reminder is either left untouched by a sweep or flipped from not
taken to taken. -/
theorem process_fst_cases (o : String → Option Owner) (s : String → Bool)
    (now : Int) (r : Reminder) :
    (processReminder o s now r).1 = r
    ∨ ((processReminder o s now r).1 = { r with taken := true }
        ∧ r.taken = false ∧ r.timestamp ≤ now) := by
  by_cases h : r.timestamp ≤ now ∧ r.taken = false
  · exact Or.inr ⟨by simp [processReminder, h], h.2, h.1⟩
  · exact Or.inl (by simp [processReminder, h])

/-- Processing a reminder twice at the same clock is the same as once. -/
theorem process_fst_idem (o : String → Option Owner) (s : String → Bool)
    (now : Int) (r : Reminder) :
    (processReminder o s now (processReminder o s now r).1).1
      = (processReminder o s now r).1 := by
  by_cases h : r.timestamp ≤ now ∧ r.taken = false
  · have h1 : (processReminder o s now r).1 = { r with taken := true } := by
      simp [processReminder, h]
    rw [h1]
    simp [processReminder]
  · have h1 : (processReminder o s now r).1 = r := by simp [processReminder, h]
    rw [h1]
    exact h1

/-- Any send attempted while processing a reminder is for a due, untaken
reminder with an owner holding a token, and carries the fixed title and the
medicine-derived body. -/
theorem mem_process_sends (o : String → Option Owner) (s : String → Bool)
    (now : Int) (r : Reminder) (m : SendMsg)
    (h : m ∈ (processReminder o s now r).2) :
    r.timestamp ≤ now ∧ r.taken = false
    ∧ m.title = "Medicine Reminder"
    ∧ m.body = "Time to take " ++ r.medicine.getD ""
    ∧ m.ok = s m.token
    ∧ ∃ ph ow, r.phone = some ph ∧ o ph = some ow ∧ ow.token = some m.token := by
  by_cases hc : r.timestamp ≤ now ∧ r.taken = false
  · rcases hp : r.phone with _ | ph
    · have he : (processReminder o s now r).2 = [] := by
        simp [processReminder, hc, hp]
      rw [he] at h
      simp at h
    · rcases ho : o ph with _ | ow
      · have he : (processReminder o s now r).2 = [] := by
          simp [processReminder, hc, hp, ho]
        rw [he] at h
        simp at h
      · rcases ht : ow.token with _ | tk
        · have he : (processReminder o s now r).2 = [] := by
            simp [processReminder, hc, hp, ho, ht]
          rw [he] at h
          simp at h
        · have he : (processReminder o s now r).2
              = [{ token := tk, title := "Medicine Reminder",
                   body := "Time to take " ++ r.medicine.getD "", ok := s tk }] := by
            simp [processReminder, hc, hp, ho, ht]
          rw [he] at h
          simp at h
          subst h
          refine ⟨hc.1, hc.2, rfl, rfl, rfl, ph, ow, ?_, ?_, ?_⟩ <;> simp [hp, ho, ht]
  · have he : (processReminder o s now r).2 = [] := by
      simp [processReminder, hc]
    rw [he] at h
    simp at h

/-! ## Claim theorems -/

/-- C1: every reminder whose due time is at most the current clock and
whose delivered (taken) flag is false is marked taken by one sweep; sweeps
act pointwise; an already-taken reminder is left untouched with no send;
and re-running a sweep on an already-swept store changes nothing. -/
theorem sweep_marks_due_and_is_idempotent (o : String → Option Owner)
    (s : String → Bool) (now : Int) (rs : List Reminder) :
    (sweep o s now rs).1 = rs.map (fun r => (processReminder o s now r).1)
    ∧ (∀ r : Reminder, r.timestamp ≤ now → r.taken = false →
        (processReminder o s now r).1 = { r with taken := true })
    ∧ (∀ r : Reminder, r.taken = true → processReminder o s now r = (r, []))
    ∧ (sweep o s now (sweep o s now rs).1).1 = (sweep o s now rs).1 := by
  refine ⟨rfl, fun r h1 h2 => process_of_due o s now r h1 h2,
    fun r h => process_of_taken o s now r h, ?_⟩
  show (rs.map fun r => (processReminder o s now r).1).map
      (fun r => (processReminder o s now r).1)
    = rs.map fun r => (processReminder o s now r).1
  rw [List.map_map]
  exact List.map_congr_left fun r _ => process_fst_idem o s now r

/-- Witness for C1 at a concrete store: a due reminder gets its taken flag
set by the sweep. -/
theorem sweep_marks_due_and_is_idempotent_witness :
    (processReminder (fun _ => none) (fun _ => true) 100
        { id := "r1", medicine := some "aspirin", timestamp := 50,
          phone := some "p", day := .vInt 1, created_at := 0, taken := false }).1
      = { id := "r1", medicine := some "aspirin", timestamp := 50,
          phone := some "p", day := .vInt 1, created_at := 0, taken := true } :=
  (sweep_marks_due_and_is_idempotent (fun _ => none) (fun _ => true) 100 []).2.1
    { id := "r1", medicine := some "aspirin", timestamp := 50,
      phone := some "p", day := .vInt 1, created_at := 0, taken := false }
    (by decide) rfl

/-- C2: the dispatch loop performs one sweep per iteration and then sleeps
the fixed 10-second interval; every sleep in its trace is 10 seconds; and
the store it maintains evolves only by sweeping, independent of requests. -/
theorem dispatch_loop_fixed_interval (o : String → Option Owner)
    (s : String → Bool) (now : Nat → Int) (init : List Reminder) (n : Nat) :
    sleepSeconds = 10
    ∧ (dispatchLoop o s now init (n + 1)).1
        = (sweep o s (now n) (dispatchLoop o s now init n).1).1
    ∧ (dispatchLoop o s now init (n + 1)).2
        = (dispatchLoop o s now init n).2
          ++ [LoopEvent.sweepDone (sweep o s (now n) (dispatchLoop o s now init n).1).2,
              LoopEvent.slept sleepSeconds]
    ∧ (∀ k, LoopEvent.slept k ∈ (dispatchLoop o s now init n).2 → k = 10) := by
  refine ⟨rfl, rfl, rfl, ?_⟩
  induction n with
  | zero => intro k hk; simp [dispatchLoop] at hk
  | succ n ih =>
    intro k hk
    simp [dispatchLoop, sleepSeconds] at hk
    rcases hk with hk | hk
    · exact ih k hk
    · exact hk

/-- Witness for C2: after one iteration of a concrete loop the trace holds
a 10-second sleep. -/
theorem dispatch_loop_fixed_interval_witness :
    LoopEvent.slept sleepSeconds
      ∈ (dispatchLoop (fun _ => none) (fun _ => true) (fun _ => 0) [] 1).2
    ∧ sleepSeconds = 10 :=
  ⟨by decide,
   (dispatch_loop_fixed_interval (fun _ => none) (fun _ => true) (fun _ => 0) [] 1).2.2.2
     sleepSeconds (by decide)⟩

/-- C3: the sweep is fire-and-forget.  Sweeping acts on each reminder
independently of the others; a due, untaken reminder whose phone is
missing, whose owner record is absent, or whose owner has no token is still
marked taken with no send attempted; and when the send fails the reminder
is still marked taken.  Processing is a total function, so no error can
propagate to any caller. -/
theorem sweep_fire_and_forget (o : String → Option Owner) (s : String → Bool)
    (now : Int) (rs : List Reminder) :
    (sweep o s now rs).1 = rs.map (fun r => (processReminder o s now r).1)
    ∧ ∀ r : Reminder, r.timestamp ≤ now → r.taken = false →
        (r.phone = none → processReminder o s now r = ({ r with taken := true }, []))
        ∧ (∀ ph, r.phone = some ph → o ph = none →
            processReminder o s now r = ({ r with taken := true }, []))
        ∧ (∀ ph ow, r.phone = some ph → o ph = some ow → ow.token = none →
            processReminder o s now r = ({ r with taken := true }, []))
        ∧ (∀ ph ow tk, r.phone = some ph → o ph = some ow → ow.token = some tk →
            s tk = false →
            processReminder o s now r
              = ({ r with taken := true },
                 [{ token := tk, title := "Medicine Reminder",
                    body := "Time to take " ++ r.medicine.getD "", ok := false }])) := by
  refine ⟨rfl, fun r h1 h2 => ⟨?_, ?_, ?_, ?_⟩⟩
  · intro hp; simp [processReminder, h1, h2, hp]
  · intro ph hp ho; simp [processReminder, h1, h2, hp, ho]
  · intro ph ow hp ho ht; simp [processReminder, h1, h2, hp, ho, ht]
  · intro ph ow tk hp ho ht hs; simp [processReminder, h1, h2, hp, ho, ht, hs]

/-- Witness for C3: a concrete due reminder whose send fails is still
marked taken. -/
theorem sweep_fire_and_forget_witness :
    processReminder (fun _ => some { name := none, email := none, token := some "tk" })
        (fun _ => false) 100
        { id := "r1", medicine := some "med", timestamp := 50,
          phone := some "p", day := .vInt 1, created_at := 0, taken := false }
      = ({ id := "r1", medicine := some "med", timestamp := 50,
           phone := some "p", day := .vInt 1, created_at := 0, taken := true },
         [{ token := "tk", title := "Medicine Reminder",
            body := "Time to take " ++ "med", ok := false }]) :=
  ((sweep_fire_and_forget
      (fun _ => some { name := none, email := none, token := some "tk" })
      (fun _ => false) 100 []).2
    { id := "r1", medicine := some "med", timestamp := 50,
      phone := some "p", day := .vInt 1, created_at := 0, taken := false }
    (by decide) rfl).2.2.2 "p"
      { name := none, email := none, token := some "tk" } "tk" rfl rfl rfl rfl

/-- C5: every send a sweep attempts carries the fixed title "Medicine
Reminder" and the body "Time to take <medicine>" of some due, untaken,
token-holding reminder of the store; and a due, untaken reminder whose
owner holds a token gets exactly one attempted send, with exactly those
fields. -/
theorem sweep_sends_title_and_body (o : String → Option Owner)
    (s : String → Bool) (now : Int) (rs : List Reminder) :
    (∀ m ∈ (sweep o s now rs).2,
        m.title = "Medicine Reminder"
        ∧ ∃ r ∈ rs, r.timestamp ≤ now ∧ r.taken = false
            ∧ m.body = "Time to take " ++ r.medicine.getD ""
            ∧ ∃ ph ow, r.phone = some ph ∧ o ph = some ow ∧ ow.token = some m.token)
    ∧ (∀ (r : Reminder) (ph : String) (ow : Owner) (tk : String),
        r.timestamp ≤ now → r.taken = false →
        r.phone = some ph → o ph = some ow → ow.token = some tk →
        (processReminder o s now r).2
          = [{ token := tk, title := "Medicine Reminder",
               body := "Time to take " ++ r.medicine.getD "", ok := s tk }]) := by
  constructor
  · intro m hm
    rw [show (sweep o s now rs).2
          = rs.flatMap (fun r => (processReminder o s now r).2) from rfl,
        List.mem_flatMap] at hm
    obtain ⟨r, hr, hmr⟩ := hm
    obtain ⟨hdue, htk, htitle, hbody, _, ph, ow, hp, ho, htok⟩ :=
      mem_process_sends o s now r m hmr
    exact ⟨htitle, r, hr, hdue, htk, hbody, ph, ow, hp, ho, htok⟩
  · intro r ph ow tk h1 h2 hp ho ht
    simp [processReminder, h1, h2, hp, ho, ht]

/-- Witness for C5: the one send attempted for a concrete due reminder has
the fixed title and the medicine-derived body. -/
theorem sweep_sends_title_and_body_witness :
    (processReminder (fun _ => some { name := none, email := none, token := some "tok" })
        (fun _ => true) 200
        { id := "r2", medicine := some "ibuprofen", timestamp := 150,
          phone := some "ph", day := .vInt 2, created_at := 0, taken := false }).2
      = [{ token := "tok", title := "Medicine Reminder",
           body := "Time to take " ++ "ibuprofen", ok := true }] :=
  (sweep_sends_title_and_body
      (fun _ => some { name := none, email := none, token := some "tok" })
      (fun _ => true) 200 []).2
    { id := "r2", medicine := some "ibuprofen", timestamp := 150,
      phone := some "ph", day := .vInt 2, created_at := 0, taken := false }
    "ph" { name := none, email := none, token := some "tok" } "tok"
    (by decide) rfl rfl rfl rfl

/-- A successful `create_reminder` call appends exactly one reminder, whose
taken flag is false and whose id is the fresh id. -/
theorem create_reminder_taken_false (p : ReminderPayload) (newId : String)
    (now : Int) (data : List Reminder) (out : List Reminder × String)
    (h : create_reminder p newId now data = some out) :
    ∃ r : Reminder, out.1 = data ++ [r] ∧ r.taken = false ∧ r.id = newId := by
  rcases hts : pyIntConv (pyOrZero p.timestamp) with _ | ts
  · rw [create_reminder, hts] at h
    cases h
  · rw [create_reminder, hts] at h
    refine ⟨{ id := newId, medicine := p.medicine, timestamp := ts, phone := p.phone,
              day := p.day.getD (.vInt 1), created_at := now, taken := false },
            ?_, rfl, rfl⟩
    injection h with hval
    rw [← hval]

/-- Each operation leaves the reminder list unchanged, appends one freshly
created reminder, or (for a sweep) maps the per-reminder processing over
it. -/
theorem applyOp_reminders_cases (op : Op) (st : Store) :
    (applyOp op st).reminders = st.reminders
    ∨ (∃ r : Reminder, (applyOp op st).reminders = st.reminders ++ [r])
    ∨ (∃ ow sd nw, op = Op.sweepOp ow sd nw
        ∧ (applyOp op st).reminders
            = st.reminders.map (fun r => (processReminder ow sd nw r).1)) := by
  cases op with
  | listReminders => exact Or.inl rfl
  | createReminder p newId now =>
    rcases h : create_reminder p newId now st.reminders with _ | out
    · exact Or.inl (by simp [applyOp, h])
    · obtain ⟨r, hr, _, _⟩ := create_reminder_taken_false p newId now st.reminders out h
      exact Or.inr (Or.inl ⟨r, by simp [applyOp, h, hr]⟩)
  | chat m => exact Or.inl rfl
  | getReviews => exact Or.inl rfl
  | postReview p newId now =>
    rcases h : post_review p newId now st.reviews with _ | out <;>
      exact Or.inl (by simp [applyOp, h])
  | saveProfile p now => exact Or.inl rfl
  | registerToken ph tk send => exact Or.inl rfl
  | upload f g1 g2 => exact Or.inl rfl
  | root => exact Or.inl rfl
  | sweepOp ow sd nw => exact Or.inr (Or.inr ⟨ow, sd, nw, rfl, rfl⟩)

/-- C4: the taken (delivered) flag is monotonic.  Every reminder is created
with the flag false; no operation removes or reorders stored reminders or
shrinks the list; and whenever an operation changes a stored reminder at
all, that operation is a sweep and the change is exactly the false-to-true
flip of the taken flag. -/
theorem taken_flag_monotone (op : Op) (st : Store) :
    (∀ (p : ReminderPayload) (newId : String) (now : Int)
        (data : List Reminder) (out : List Reminder × String),
        create_reminder p newId now data = some out →
        ∃ r : Reminder, out.1 = data ++ [r] ∧ r.taken = false ∧ r.id = newId)
    ∧ st.reminders.length ≤ (applyOp op st).reminders.length
    ∧ (∀ (i : Nat) (r r' : Reminder),
        st.reminders[i]? = some r → (applyOp op st).reminders[i]? = some r' →
        r'.id = r.id
        ∧ (r.taken = true → r'.taken = true)
        ∧ (r' ≠ r →
            (∃ ow sd nw, op = Op.sweepOp ow sd nw)
            ∧ r.taken = false ∧ r' = { r with taken := true })) := by
  refine ⟨create_reminder_taken_false, ?_, ?_⟩
  · rcases applyOp_reminders_cases op st with heq | ⟨r0, heq⟩ | ⟨ow, sd, nw, _, heq⟩ <;>
      rw [heq] <;> simp
  · intro i r r' hr hr'
    rcases applyOp_reminders_cases op st with heq | ⟨r0, heq⟩ | ⟨ow, sd, nw, hop, heq⟩
    · rw [heq, hr] at hr'
      cases hr'
      exact ⟨rfl, fun h => h, fun hne => absurd rfl hne⟩
    · have hlt : i < st.reminders.length := by
        rcases List.getElem?_eq_some.mp hr with ⟨w, _⟩
        exact w
      rw [heq, List.getElem?_append_left hlt, hr] at hr'
      cases hr'
      exact ⟨rfl, fun h => h, fun hne => absurd rfl hne⟩
    · rw [heq, List.getElem?_map, hr] at hr'
      simp at hr'
      rcases process_fst_cases ow sd nw r with hcase | ⟨hcase, hfalse, _⟩
      · rw [hcase] at hr'
        subst hr'
        exact ⟨rfl, fun h => h, fun hne => absurd rfl hne⟩
      · rw [hcase] at hr'
        subst hr'
        exact ⟨rfl, fun _ => rfl, fun _ => ⟨⟨ow, sd, nw, hop⟩, hfalse, rfl⟩⟩

/-- Witness for C4: a concrete create call stores its reminder with the
taken flag false. -/
theorem taken_flag_monotone_witness :
    ∃ r : Reminder,
      ([{ id := "id1", medicine := some "m", timestamp := 0, phone := some "p",
          day := .vInt 1, created_at := 5, taken := false }], "id1").1
        = [] ++ [r] ∧ r.taken = false ∧ r.id = "id1" :=
  (taken_flag_monotone Op.root { reminders := [], reviews := [], profiles := [], tokens := [] }).1
    { medicine := some "m", timestamp := none, phone := some "p", day := none }
    "id1" 5 []
    ([{ id := "id1", medicine := some "m", timestamp := 0, phone := some "p",
        day := .vInt 1, created_at := 5, taken := false }], "id1")
    (by decide)

/-- C6 counterexample: profile storage is not pure last-write-wins.  Two
runs that differ only in the notes of the FIRST save, followed by the same
second save (whose notes field is absent), end in different stored records,
and the surviving notes value is the first write's. -/
theorem save_profile_not_solely_second_write :
    getKey "p" (save_profile
        { phone := some "p", name := some "B", email := some "b@x", notes := none } 9
        (save_profile
          { phone := some "p", name := some "A", email := some "a@x", notes := some "keep" }
          5 []).1).1
      ≠ getKey "p" (save_profile
        { phone := some "p", name := some "B", email := some "b@x", notes := none } 9
        (save_profile
          { phone := some "p", name := some "A", email := some "a@x", notes := some "other" }
          5 []).1).1
    ∧ getKey "p" (save_profile
        { phone := some "p", name := some "B", email := some "b@x", notes := none } 9
        (save_profile
          { phone := some "p", name := some "A", email := some "a@x", notes := some "keep" }
          5 []).1).1
      = some { name := some "B", email := some "b@x", notes := some "keep", updated_at := 9 } := by
  constructor
  · decide
  · decide

/-- C6 amended: a second save for the same phone overwrites name, email and
the update time from its own payload alone; only the notes field can
survive, and it survives exactly when the second payload's notes is missing
or empty, in which case the previously stored notes is kept. -/
theorem save_profile_last_write_wins_except_notes
    (profiles : List (String × ProfileRec)) (p1 p2 : ProfilePayload)
    (n1 n2 : Int) (phone : String)
    (hph : p2.phone = some phone) (hne : phone ≠ "") :
    getKey phone (save_profile p2 n2 (save_profile p1 n1 profiles).1).1
      = some { name := p2.name, email := p2.email,
               notes := pyOrOptS p2.notes
                 ((getKey phone (save_profile p1 n1 profiles).1).bind (fun q => q.notes)),
               updated_at := n2 }
    ∧ (∀ s, p2.notes = some s → s ≠ "" →
        getKey phone (save_profile p2 n2 (save_profile p1 n1 profiles).1).1
          = some { name := p2.name, email := p2.email,
                   notes := some s, updated_at := n2 }) := by
  have hmain : ∀ m : List (String × ProfileRec),
      getKey phone (save_profile p2 n2 m).1
        = some { name := p2.name, email := p2.email,
                 notes := pyOrOptS p2.notes ((getKey phone m).bind (fun q => q.notes)),
                 updated_at := n2 } := by
    intro m
    simp [save_profile, hph, hne, getKey_setKey_self]
  refine ⟨hmain _, ?_⟩
  intro s hs hsne
  rw [hmain _]
  simp [pyOrOptS, hs, hsne]

/-- Witness for the amended C6 at a concrete pair of saves. -/
theorem save_profile_last_write_wins_except_notes_witness :
    getKey "p" (save_profile
        { phone := some "p", name := some "B", email := some "b", notes := none } 9
        (save_profile
          { phone := some "p", name := some "A", email := some "a", notes := some "keep" }
          5 []).1).1
      = some { name := some "B", email := some "b",
               notes := pyOrOptS none
                 ((getKey "p" (save_profile
                     { phone := some "p", name := some "A", email := some "a", notes := some "keep" }
                     5 []).1).bind
                   (fun q => q.notes)),
               updated_at := 9 } :=
  (save_profile_last_write_wins_except_notes []
    { phone := some "p", name := some "A", email := some "a", notes := some "keep" }
    { phone := some "p", name := some "B", email := some "b", notes := none }
    5 9 "p" rfl (by decide)).1

/-- C7: a non-empty chat message is answered with the echoing reply, the
reply contains the message verbatim, and the handler changes no stored
state. -/
theorem chat_echoes_message (m : String) (st : Store) (h : m ≠ "") :
    chat_endpoint (some m) = some (chat_reply m)
    ∧ (∃ a b, chat_reply m = a ++ m ++ b)
    ∧ applyOp (Op.chat (some m)) st = st := by
  refine ⟨by simp [chat_endpoint, h],
    ⟨"I got your message: \"",
     "\". MediMitra suggests to check medicine label and consult a doctor for medical questions.",
     rfl⟩, rfl⟩

/-- Witness for C7 at a concrete message. -/
theorem chat_echoes_message_witness :
    chat_endpoint (some "hello") = some (chat_reply "hello")
    ∧ ∃ a b, chat_reply "hello" = a ++ "hello" ++ b :=
  ⟨(chat_echoes_message "hello"
      { reminders := [], reviews := [], profiles := [], tokens := [] } (by decide)).1,
   (chat_echoes_message "hello"
      { reminders := [], reviews := [], profiles := [], tokens := [] } (by decide)).2.1⟩

/-- C8: a missing, null, zero or otherwise falsy timestamp is stored as the
integer 0 with the taken flag false (Python `or 0` short-circuits before
`int()` runs, which is also why the falsy empty string is stored as 0
rather than raising); a truthy string that is not a decimal numeral makes
`int()` raise an uncaught ValueError, so no reminder is stored and the
store is unchanged. -/
theorem create_reminder_timestamp_fallback_and_error
    (p : ReminderPayload) (newId : String) (now : Int)
    (data : List Reminder) (st : Store) :
    ((p.timestamp = none ∨ ∃ v, p.timestamp = some v ∧ v.truthy = false) →
      create_reminder p newId now data
        = some (data ++ [{ id := newId, medicine := p.medicine, timestamp := 0,
                           phone := p.phone, day := p.day.getD (.vInt 1),
                           created_at := now, taken := false }], newId))
    ∧ (∀ s, p.timestamp = some (.vStr s) → s ≠ "" → pyIntOfStr s = none →
        create_reminder p newId now data = none
        ∧ applyOp (Op.createReminder p newId now) st = st) := by
  constructor
  · intro hfalsy
    have hz : pyOrZero p.timestamp = .vInt 0 := by
      rcases hfalsy with h | ⟨v, hv, htr⟩
      · simp [pyOrZero, h]
      · simp [pyOrZero, hv, htr]
    simp [create_reminder, hz, pyIntConv]
  · intro s hs hsne hparse
    have hz : pyOrZero p.timestamp = .vStr s := by
      simp [pyOrZero, hs, PyVal.truthy, hsne]
    have hcr : ∀ d : List Reminder, create_reminder p newId now d = none := by
      intro d
      simp [create_reminder, hz, pyIntConv, hparse]
    exact ⟨hcr data, by simp [applyOp, hcr st.reminders]⟩

/-- Witness for C8: an absent timestamp is stored as 0 and not taken; the
non-numeral string timestamp "abc" stores nothing. -/
theorem create_reminder_timestamp_witness :
    create_reminder
        { medicine := some "m", timestamp := none, phone := none, day := none } "id" 7 []
      = some ([{ id := "id", medicine := some "m", timestamp := 0, phone := none,
                 day := .vInt 1, created_at := 7, taken := false }], "id")
    ∧ create_reminder
        { medicine := some "m", timestamp := some (.vStr "abc"), phone := none, day := none }
        "id" 7 [] = none :=
  ⟨(create_reminder_timestamp_fallback_and_error
      { medicine := some "m", timestamp := none, phone := none, day := none }
      "id" 7 [] { reminders := [], reviews := [], profiles := [], tokens := [] }).1
      (Or.inl rfl),
   ((create_reminder_timestamp_fallback_and_error
      { medicine := some "m", timestamp := some (.vStr "abc"), phone := none, day := none }
      "id" 7 [] { reminders := [], reviews := [], profiles := [], tokens := [] }).2
      "abc" rfl (by decide) (by decide)).1⟩

/-- C9: token registration fails with HTTP 400 exactly when the phone or
the token field is missing or falsy, and then the stored mapping is
unchanged; otherwise the token is stored under the phone and the call
reports ok; and neither the stored state nor the response depends on the
outcome of the best-effort test notification. -/
theorem register_token_spec (phone token : Option String) (send : SendOutcome)
    (tokens : List (String × String)) :
    ((register_token phone token send tokens).2 = false
        ↔ truthyS phone = false ∨ truthyS token = false)
    ∧ ((register_token phone token send tokens).2 = false →
        (register_token phone token send tokens).1 = tokens)
    ∧ (∀ ph tk, phone = some ph → token = some tk →
        (register_token phone token send tokens).2 = true →
        (register_token phone token send tokens).1 = setKey ph tk tokens
        ∧ getKey ph (register_token phone token send tokens).1 = some tk)
    ∧ (∀ send2 : SendOutcome,
        register_token phone token send tokens
          = register_token phone token send2 tokens) := by
  refine ⟨?_, ?_, ?_, fun send2 => rfl⟩
  · rcases hp : truthyS phone with _ | _ <;> rcases ht : truthyS token with _ | _ <;>
      simp [register_token, hp, ht]
  · intro h2
    rcases hand : truthyS phone && truthyS token with _ | _
    · simp [register_token, hand]
    · simp [register_token, hand] at h2
  · intro ph tk hph htk h2
    subst hph
    subst htk
    rcases hand : truthyS (some ph) && truthyS (some tk) with _ | _
    · simp [register_token, hand] at h2
    · constructor
      · simp [register_token, hand]
      · simp [register_token, hand, getKey_setKey_self]

/-- Witness for C9 at a concrete registration whose test send fails. -/
theorem register_token_spec_witness :
    (register_token (some "p") (some "t") SendOutcome.failure []).1 = setKey "p" "t" []
    ∧ getKey "p" (register_token (some "p") (some "t") SendOutcome.failure []).1
        = some "t" :=
  (register_token_spec (some "p") (some "t") SendOutcome.failure []).2.2.1
    "p" "t" rfl rfl (by decide)

/-- Replacing every space with an underscore leaves no space behind. -/
theorem replaceSpaces_no_space (s : String) : ' ' ∉ (replaceSpaces s).data := by
  intro h
  rw [show (replaceSpaces s).data = s.data.map (fun c => if c = ' ' then '_' else c)
        from rfl] at h
  rcases List.mem_map.mp h with ⟨c, _, hc⟩
  by_cases h2 : c = ' '
  · rw [if_pos h2] at hc
    exact absurd hc (by decide)
  · rw [if_neg h2] at hc
    exact h2 hc

/-- C10: the public path of an upload is "/uploads/" followed by the stored
name; the stored name is the 32-character hexadecimal identifier, a hyphen,
and the (possibly generated) filename with every space replaced by an
underscore; the stored name contains no space; and a missing or empty
filename falls back to the generated "upload-<id>" name. -/
theorem upload_public_path_shape (fileName : Option String) (genId fileId : String)
    (h1 : isHexId fileId = true) :
    (upload_file fileName genId fileId).2
      = "/uploads/" ++ (upload_file fileName genId fileId).1
    ∧ (upload_file fileName genId fileId).1
      = fileId ++ "-" ++ replaceSpaces (pyOrS fileName ("upload-" ++ genId))
    ∧ fileId.length = 32
    ∧ (∀ s, fileName = some s → s ≠ "" →
        (upload_file fileName genId fileId).2
          = "/uploads/" ++ fileId ++ "-" ++ replaceSpaces s)
    ∧ ((fileName = none ∨ fileName = some "") →
        (upload_file fileName genId fileId).1
          = fileId ++ "-" ++ replaceSpaces ("upload-" ++ genId))
    ∧ ' ' ∉ (upload_file fileName genId fileId).1.data := by
  refine ⟨rfl, rfl, ?_, ?_, ?_, ?_⟩
  · have h1' := h1
    simp [isHexId] at h1'
    exact h1'.1
  · intro s hs hsne
    subst hs
    simp [upload_file, pyOrS, hsne, String.append_assoc]
  · intro hfalsy
    rcases hfalsy with h | h <;> subst h <;> simp [upload_file, pyOrS]
  · intro hmem
    have hdata : (upload_file fileName genId fileId).1.data
        = fileId.data ++ "-".data
            ++ (replaceSpaces (pyOrS fileName ("upload-" ++ genId))).data := by
      show ((fileId ++ "-") ++ replaceSpaces (pyOrS fileName ("upload-" ++ genId))).data = _
      rw [String.data_append, String.data_append]
    rw [hdata] at hmem
    rcases List.mem_append.mp hmem with hmem2 | hmem3
    · rcases List.mem_append.mp hmem2 with hin | hin
      · have h1' := h1
        simp only [isHexId, Bool.and_eq_true, List.all_eq_true] at h1'
        have := h1'.2 ' ' hin
        exact absurd this (by decide)
      · exact absurd hin (by decide)
    · exact replaceSpaces_no_space _ hmem3

/-- Witness for C10 at a concrete hexadecimal identifier and a filename
with a space. -/
theorem upload_public_path_shape_witness :
    (upload_file (some "a b.png") "00000000000000000000000000000000"
        "0123456789abcdef0123456789abcdef").2
      = "/uploads/" ++ "0123456789abcdef0123456789abcdef" ++ "-"
          ++ replaceSpaces "a b.png" :=
  (upload_public_path_shape (some "a b.png") "00000000000000000000000000000000"
      "0123456789abcdef0123456789abcdef" (by decide)).2.2.2.1
    "a b.png" rfl (by decide)

end Medibuddy
